import Mathlib

/-!
Shallow embedding of the chart-generation core of `streamlit_app.py`
(Excel → PDF bar charts).  Tables are ordered lists of named columns of
cells; a cell is either a number or a text value, mirroring pandas'
numeric-dtype / object-dtype distinction.  The per-sheet renderer
`render_sheet_to_pdf` and the per-workbook main loop `assemble` are
translated line by line from the source; chart construction is fallible
(matplotlib raises on shape mismatches and non-numeric error values),
modelled with `Except`.
-/

namespace ExcelToGraph

/-- One spreadsheet cell: a numeric value or a text value. -/
inductive Cell where
  | num (v : Int)
  | text (s : String)
deriving DecidableEq

/-- Whether the cell holds a number. -/
def Cell.isNum : Cell → Bool
  | .num _ => true
  | .text _ => false

/-- Python `str(...)` of a cell value, as used by `astype(str)`. -/
def Cell.toStr : Cell → String
  | .num v => toString v
  | .text s => s

/-- The numeric content of a cell (only applied to numeric-dtype columns). -/
def Cell.toIntD : Cell → Int
  | .num v => v
  | .text _ => 0

/-- A named column of cells. -/
structure Column where
  name : String
  cells : List Cell
deriving DecidableEq

/-- A table is an ordered list of named columns (a pandas DataFrame). -/
abbrev Table := List Column

/-- `pd.api.types.is_numeric_dtype(df[col])`: every cell is numeric. -/
def is_numeric_dtype (c : Column) : Bool := c.cells.all Cell.isNum

/-- Source `find_category_column`: the name of the first column whose
dtype is not numeric, or `none` when every column is numeric. -/
def find_category_column (df : Table) : Option String :=
  (df.find? (fun c => ! is_numeric_dtype c)).map Column.name

/-- Number of rows of the table (the length of the pandas index; columns
of one DataFrame all share it). -/
def nRows (df : Table) : Nat :=
  match df with
  | [] => 0
  | c :: _ => c.cells.length

/-- `df.empty`: no columns or no rows. -/
def tableIsEmpty (df : Table) : Bool :=
  df.isEmpty || nRows df == 0

/-- Whether the table has a column with the given name
(`candidate in df.columns`). -/
def hasColumn (df : Table) (name : String) : Bool :=
  df.any (fun c => c.name = name)

/-- The cells of the named column (`df[name]`); only queried for names
that are present. -/
def colCells (df : Table) (name : String) : List Cell :=
  ((df.find? (fun c => c.name = name)).map Column.cells).getD []

/-- `df[name] = cells`: pandas replaces an existing column in place and
appends a new one at the end. -/
def setColumn (df : Table) (name : String) (cells : List Cell) : Table :=
  if df.any (fun c => c.name = name) then
    df.map (fun c => if c.name = name then ⟨name, cells⟩ else c)
  else df ++ [⟨name, cells⟩]

/-- `df.index.astype(str)`: the stringified 0-based row positions. -/
def indexCells (df : Table) : List Cell :=
  (List.range (nRows df)).map (fun i => Cell.text (toString i))

/-- The error-column name candidates for a numeric column, in the
source's fixed priority order. -/
def errorCandidates (col : String) : List String :=
  [col ++ "_Fehler", col ++ "_SD", col ++ "_Error"]

/-- The source's error-column probe: the first candidate name present
among the table's columns. -/
def findErrorColumn (df : Table) (col : String) : Option String :=
  (errorCandidates col).find? (fun cand => hasColumn df cand)

/-- One chart page: everything `render_sheet_to_pdf` feeds into
matplotlib for one numeric column. -/
structure ChartSpec where
  title : String
  categories : List String
  values : List Int
  errors : Option (List Int)
  colors : List String
  yLo : ℚ
  yHi : ℚ
deriving DecidableEq

/-- `[colors[i % len(colors)] for i in range(n)]`. -/
def cycleColors (palette : List String) (n : Nat) : List String :=
  (List.range n).map (fun i => palette.getD (i % palette.length) "")

/-- Python `max` over a non-empty list of numbers (0 on the empty list,
which the source never reaches thanks to its `len(values) > 0` guard). -/
def listMax : List Int → Int
  | [] => 0
  | [v] => v
  | v :: rest => max v (listMax rest)

/-- The chart built for one numeric column once matplotlib has accepted
the data: title, categories, values, optional errors, cycled colors and
the y-limits `0 .. max(values)*1.2` (or `0 .. 1` on an empty series). -/
def mkChartSpec (sheetLabel col : String) (palette : List String)
    (categories : List String) (valueCells : List Cell)
    (errCells : Option (List Cell)) : ChartSpec :=
  let values := valueCells.map Cell.toIntD
  { title := sheetLabel ++ " – " ++ col
    categories := categories
    values := values
    errors := errCells.map (fun es => es.map Cell.toIntD)
    colors := cycleColors palette categories.length
    yLo := 0
    yHi := if values.length > 0 then (listMax values : ℚ) * (6 / 5 : ℚ) else 1 }

/-- The body of the `for col in value_cols` loop for one column: probe
for an error column, then `ax.bar(categories, values, yerr=errors, ...)`,
which raises when the shapes disagree or the error values are not
numbers. -/
def chartFor (df : Table) (sheetLabel : String) (palette : List String)
    (categories : List String) (col : String) : Except String ChartSpec :=
  if (colCells df col).length ≠ categories.length then
    .error "shape mismatch between categories and values"
  else
    match (findErrorColumn df col).map (colCells df) with
    | some es =>
        if es.length ≠ (colCells df col).length then
          .error "yerr length does not match values"
        else if es.any (fun c => ! c.isNum) then
          .error "could not convert error values to float"
        else
          .ok (mkChartSpec sheetLabel col palette categories (colCells df col) (some es))
    | none =>
        .ok (mkChartSpec sheetLabel col palette categories (colCells df col) none)

/-- The `for col in value_cols` loop.  Each successful chart is saved to
the PDF immediately (`pdf.savefig`); the first failing column raises out
of the loop.  The result is the list of pages already saved, paired with
the failure message if one occurred. -/
def renderCols (df : Table) (label : String) (palette : List String)
    (categories : List String) : List String → List ChartSpec × Option String
  | [] => ([], none)
  | col :: rest =>
    match chartFor df label palette categories col with
    | .error msg => ([], some msg)
    | .ok spec =>
      let r := renderCols df label palette categories rest
      (spec :: r.1, r.2)

/-- The table after the category step of `render_sheet_to_pdf`: when no
non-numeric column exists, `df["Index"]` is set to the stringified row
positions (overwriting an existing `Index` column in place). -/
def classifiedTable (df : Table) : Table :=
  match find_category_column df with
  | some _ => df
  | none => setColumn df "Index" (indexCells df)

/-- The category column name used by `render_sheet_to_pdf`. -/
def categoryColName (df : Table) : String :=
  (find_category_column df).getD "Index"

/-- `categories = df[cat_col].astype(str).tolist()`. -/
def sheetCategories (df : Table) : List String :=
  (colCells (classifiedTable df) (categoryColName df)).map Cell.toStr

/-- `value_cols = [c for c in df.columns if is_numeric_dtype(df[c])]`,
computed on the (possibly Index-augmented) table. -/
def value_cols (df : Table) : List String :=
  ((classifiedTable df).filter is_numeric_dtype).map Column.name

/-- Source `render_sheet_to_pdf`: pages saved for this sheet, paired
with the failure message when a column raised mid-loop. -/
def render_sheet_to_pdf (df : Table) (label : String) (palette : List String) :
    List ChartSpec × Option String :=
  renderCols (classifiedTable df) label palette (sheetCategories df) (value_cols df)

/-- One output page: a chart, or the error figure drawn by the per-sheet
exception handler (carrying the sheet name and the failure message). -/
inductive PageSpec where
  | chart (spec : ChartSpec)
  | errorPlaceholder (sheetName : String) (message : String)
deriving DecidableEq

/-- The pages one sheet contributes to the PDF: nothing for an empty
table; otherwise the charts saved before any failure, followed — when a
failure occurred — by the handler's single error page. -/
def sheetContribution (palette : List String) (s : String × Table) : List PageSpec :=
  if tableIsEmpty s.2 then []
  else
    match render_sheet_to_pdf s.2 s.1 palette with
    | (ps, none) => ps.map PageSpec.chart
    | (ps, some msg) => ps.map PageSpec.chart ++ [PageSpec.errorPlaceholder s.1 msg]

/-- The main loop: iterate the sheets in workbook order, appending each
sheet's pages to the PDF. -/
def assembleAux (palette : List String) (acc : List PageSpec) :
    List (String × Table) → List PageSpec
  | [] => acc
  | s :: rest => assembleAux palette (acc ++ sheetContribution palette s) rest

/-- `assemble workbook palette`: the full page sequence of the generated
PDF. -/
def assemble (wb : List (String × Table)) (palette : List String) : List PageSpec :=
  assembleAux palette [] wb

/-- Whether a page is a chart page. -/
def PageSpec.isChart : PageSpec → Bool
  | .chart _ => true
  | .errorPlaceholder _ _ => false

end ExcelToGraph

namespace ExcelToGraph

/-! ### Structural lemmas about the main loop -/

theorem assembleAux_eq (pal : List String) (acc : List PageSpec)
    (wb : List (String × Table)) :
    assembleAux pal acc wb = acc ++ (wb.map (sheetContribution pal)).flatten := by
  induction wb generalizing acc with
  | nil => simp [assembleAux]
  | cons s rest ih => simp [assembleAux, ih]

theorem assemble_eq_flatten (wb : List (String × Table)) (pal : List String) :
    assemble wb pal = (wb.map (sheetContribution pal)).flatten := by
  simp [assemble, assembleAux_eq]

theorem mem_assemble_contribution {wb : List (String × Table)} {pal : List String}
    {p : PageSpec} (h : p ∈ assemble wb pal) :
    ∃ s ∈ wb, p ∈ sheetContribution pal s := by
  rw [assemble_eq_flatten, List.mem_flatten] at h
  obtain ⟨pages, hpages, hmem⟩ := h
  rw [List.mem_map] at hpages
  obtain ⟨s, hs, rfl⟩ := hpages
  exact ⟨s, hs, hmem⟩

theorem chart_mem_contribution {pal : List String} {s : String × Table}
    {spec : ChartSpec} (h : PageSpec.chart spec ∈ sheetContribution pal s) :
    spec ∈ (render_sheet_to_pdf s.2 s.1 pal).1 := by
  unfold sheetContribution at h
  split at h
  · simp at h
  · split at h
    case h_1 ps heq =>
      rw [List.mem_map] at h
      obtain ⟨sp, hsp, hspec⟩ := h
      cases hspec
      rw [heq]
      exact hsp
    case h_2 ps msg heq =>
      rw [List.mem_append] at h
      rcases h with h | h
      · rw [List.mem_map] at h
        obtain ⟨sp, hsp, hspec⟩ := h
        cases hspec
        rw [heq]
        exact hsp
      · simp at h

theorem mem_renderCols_fst {df : Table} {l : String} {pal : List String}
    {cats : List String} {cols : List String} {spec : ChartSpec}
    (h : spec ∈ (renderCols df l pal cats cols).1) :
    ∃ col ∈ cols, chartFor df l pal cats col = .ok spec := by
  induction cols with
  | nil => simp [renderCols] at h
  | cons col rest ih =>
    rw [renderCols] at h
    cases hc : chartFor df l pal cats col with
    | error msg => rw [hc] at h; simp at h
    | ok s =>
      rw [hc] at h
      simp only [List.mem_cons] at h
      rcases h with rfl | h
      · exact ⟨col, List.mem_cons_self _ _, hc⟩
      · obtain ⟨c, hcm, hok⟩ := ih h
        exact ⟨c, List.mem_cons_of_mem _ hcm, hok⟩

/-! ### Shape of a successfully built chart -/

theorem chartFor_ok_spec {df : Table} {l : String} {pal : List String}
    {cats : List String} {col : String} {spec : ChartSpec}
    (h : chartFor df l pal cats col = .ok spec) :
    ∃ ecOpt : Option (List Cell),
      spec = mkChartSpec l col pal cats (colCells df col) ecOpt
      ∧ (colCells df col).length = cats.length
      ∧ ecOpt = (findErrorColumn df col).map (colCells df)
      ∧ ∀ es, ecOpt = some es → es.length = (colCells df col).length := by
  unfold chartFor at h
  split at h
  · exact absurd h (by simp)
  case isFalse hlen =>
    rw [not_not] at hlen
    split at h
    case h_1 es heq =>
      split at h
      · exact absurd h (by simp)
      case isFalse hel =>
        rw [not_not] at hel
        split at h
        · exact absurd h (by simp)
        · cases h
          exact ⟨some es, rfl, hlen, heq.symm, by intro es' he'; cases he'; exact hel⟩
    case h_2 heq =>
      cases h
      exact ⟨none, rfl, hlen, heq.symm, by intro es' he'; cases he'⟩

theorem chartFor_ok_title {df : Table} {l : String} {pal : List String}
    {cats : List String} {col : String} {spec : ChartSpec}
    (h : chartFor df l pal cats col = .ok spec) :
    spec.title = l ++ " – " ++ col := by
  obtain ⟨ecOpt, rfl, -, -, -⟩ := chartFor_ok_spec h
  rfl

theorem renderCols_fst_titles {df : Table} {l : String} {pal : List String}
    {cats : List String} {cols : List String}
    (h : (renderCols df l pal cats cols).2 = none) :
    ((renderCols df l pal cats cols).1).map ChartSpec.title
      = cols.map (fun c => l ++ " – " ++ c) := by
  induction cols with
  | nil => simp [renderCols]
  | cons col rest ih =>
    cases hc : chartFor df l pal cats col with
    | error msg => simp [renderCols, hc] at h
    | ok s =>
      simp only [renderCols, hc] at h ⊢
      simp only [List.map_cons]
      rw [ih h, chartFor_ok_title hc]

theorem renderCols_prefix_error {df : Table} {l : String} {pal : List String}
    {cats : List String} {pre : List String} {c : String} {rest : List String}
    {msg : String}
    (hpre : ∀ x ∈ pre, (chartFor df l pal cats x).isOk = true)
    (hc : chartFor df l pal cats c = .error msg) :
    renderCols df l pal cats (pre ++ c :: rest)
      = (pre.filterMap (fun x => (chartFor df l pal cats x).toOption), some msg) := by
  induction pre with
  | nil =>
    simp only [List.nil_append, List.filterMap_nil]
    simp [renderCols, hc]
  | cons x xs ih =>
    have hx := hpre x (List.mem_cons_self _ _)
    cases hcx : chartFor df l pal cats x with
    | error m => rw [hcx] at hx; simp [Except.isOk, Except.toBool] at hx
    | ok s =>
      rw [List.cons_append]
      simp only [renderCols, hcx]
      rw [ih (fun y hy => hpre y (List.mem_cons_of_mem _ hy))]
      simp [List.filterMap_cons, hcx, Except.toOption]

end ExcelToGraph

namespace ExcelToGraph

/-! ### Lemmas about category selection and the synthetic Index column -/

theorem find_category_first {pre : List Column} {c : Column} (rest : List Column)
    (hpre : ∀ p ∈ pre, is_numeric_dtype p = true) (hc : is_numeric_dtype c = false) :
    find_category_column (pre ++ c :: rest) = some c.name := by
  unfold find_category_column
  induction pre with
  | nil => simp [List.find?_cons, hc]
  | cons p ps ih =>
    have hp := hpre p (List.mem_cons_self _ _)
    rw [List.cons_append, List.find?_cons_of_neg _ (by simp [hp])]
    exact ih (fun q hq => hpre q (List.mem_cons_of_mem _ hq))

theorem find_category_none {df : Table}
    (h : ∀ c ∈ df, is_numeric_dtype c = true) :
    find_category_column df = none := by
  unfold find_category_column
  have hf : df.find? (fun c => ! is_numeric_dtype c) = none := by
    rw [List.find?_eq_none]
    intro c hc
    simp [h c hc]
  rw [hf]
  rfl

theorem colCells_setColumn_self (df : Table) (name : String) (cells : List Cell) :
    colCells (setColumn df name cells) name = cells := by
  unfold setColumn colCells
  split
  case isTrue h =>
    induction df with
    | nil => simp at h
    | cons col rest ih =>
      by_cases hcol : col.name = name
      · simp [List.find?_cons, hcol]
      · rw [List.any_cons] at h
        simp only [hcol, decide_False, Bool.false_or] at h
        simp only [List.map_cons, if_neg hcol]
        rw [List.find?_cons_of_neg _ (by simp [hcol])]
        exact ih h
  case isFalse h =>
    have hnone : df.find? (fun c => c.name = name) = none := by
      rw [List.find?_eq_none]
      intro c hc heq
      exact h (List.any_eq_true.mpr ⟨c, hc, heq⟩)
    rw [List.find?_append, hnone]
    simp [List.find?_cons]

theorem setColumn_mem_name_eq {df : Table} {name : String} {cells : List Cell}
    {c : Column} (hc : c ∈ setColumn df name cells) (hn : c.name = name) :
    c.cells = cells := by
  unfold setColumn at hc
  split at hc
  case isTrue h =>
    rw [List.mem_map] at hc
    obtain ⟨a, _, hfa⟩ := hc
    by_cases ha : a.name = name
    · rw [if_pos ha] at hfa; rw [← hfa]
    · rw [if_neg ha] at hfa; rw [← hfa] at hn; exact absurd hn ha
  case isFalse h =>
    rw [List.mem_append] at hc
    rcases hc with hc | hc
    · exact absurd (List.any_eq_true.mpr ⟨c, hc, by simp [hn]⟩) h
    · simp only [List.mem_singleton] at hc
      rw [hc]

theorem setColumn_mem_of_ne {df : Table} {name : String} {cells : List Cell}
    {c : Column} (hc : c ∈ df) (hn : c.name ≠ name) :
    c ∈ setColumn df name cells := by
  unfold setColumn
  split
  case isTrue h =>
    rw [List.mem_map]
    exact ⟨c, hc, by rw [if_neg hn]⟩
  case isFalse h =>
    exact List.mem_append_left _ hc

theorem setColumn_names_of_has {df : Table} {name : String} {cells : List Cell}
    (h : df.any (fun c => c.name = name) = true) :
    (setColumn df name cells).map Column.name = df.map Column.name := by
  unfold setColumn
  rw [if_pos h, List.map_map]
  apply List.map_congr_left
  intro a _
  by_cases ha : a.name = name
  · simp [ha]
  · simp [ha]

theorem indexCells_not_numeric {df : Table} (h : 0 < nRows df) (n : String) :
    is_numeric_dtype ⟨n, indexCells df⟩ = false := by
  unfold is_numeric_dtype indexCells
  cases hr : nRows df with
  | zero => omega
  | succ k =>
    rw [List.range_succ_eq_map]
    simp [Cell.isNum]

theorem classifiedTable_all_numeric {df : Table}
    (hall : ∀ c ∈ df, is_numeric_dtype c = true) :
    classifiedTable df = setColumn df "Index" (indexCells df) := by
  unfold classifiedTable
  rw [find_category_none hall]

theorem sheetCategories_all_numeric {df : Table}
    (hall : ∀ c ∈ df, is_numeric_dtype c = true) :
    sheetCategories df = (List.range (nRows df)).map toString := by
  unfold sheetCategories categoryColName
  rw [find_category_none hall, classifiedTable_all_numeric hall]
  rw [Option.getD_none, colCells_setColumn_self]
  unfold indexCells
  rw [List.map_map]
  rfl

theorem index_not_mem_value_cols {df : Table}
    (hall : ∀ c ∈ df, is_numeric_dtype c = true) (hrows : 0 < nRows df) :
    "Index" ∉ value_cols df := by
  unfold value_cols
  rw [classifiedTable_all_numeric hall]
  intro hmem
  rw [List.mem_map] at hmem
  obtain ⟨c, hcf, hname⟩ := hmem
  rw [List.mem_filter] at hcf
  obtain ⟨hcmem, hnum⟩ := hcf
  have hcells : c.cells = indexCells df := setColumn_mem_name_eq hcmem hname
  have : is_numeric_dtype c = false := by
    have := indexCells_not_numeric hrows c.name
    unfold is_numeric_dtype at this ⊢
    rw [hcells]
    exact this
  rw [this] at hnum
  cases hnum

/-! ### String lemmas for column names -/

theorem string_append_left_cancel {a b c : String} (h : a ++ b = a ++ c) : b = c := by
  have hd := congrArg String.data h
  rw [String.data_append, String.data_append] at hd
  exact String.ext (List.append_cancel_left hd)

theorem errorCandidate_ne_Index {x e : String}
    (h : e ∈ errorCandidates x) : e ≠ "Index" := by
  have h5 : ("Index".data).length = 5 := rfl
  unfold errorCandidates at h
  simp only [List.mem_cons, List.not_mem_nil, or_false] at h
  rcases h with rfl | rfl | rfl
  · intro heq
    have hd := congrArg String.data heq
    rw [String.data_append] at hd
    have hlen := congrArg List.length hd
    rw [List.length_append] at hlen
    have h7 : ("_Fehler".data).length = 7 := rfl
    rw [h7, h5] at hlen
    omega
  · intro heq
    have hd := congrArg String.data heq
    rw [String.data_append] at hd
    have hlen := congrArg List.length hd
    rw [List.length_append] at hlen
    have h3 : ("_SD".data).length = 3 := rfl
    rw [h3, h5] at hlen
    have hxl : x.data.length = (['I', 'n'] : List Char).length := by
      have h2 : (['I', 'n'] : List Char).length = 2 := rfl
      omega
    have hI : ("Index".data) = ['I', 'n'] ++ ['d', 'e', 'x'] := rfl
    have hS : ("_SD".data) = ['_', 'S', 'D'] := rfl
    rw [hS, hI] at hd
    exact absurd (List.append_inj hd hxl).2 (by decide)
  · intro heq
    have hd := congrArg String.data heq
    rw [String.data_append] at hd
    have hlen := congrArg List.length hd
    rw [List.length_append] at hlen
    have h6 : ("_Error".data).length = 6 := rfl
    rw [h6, h5] at hlen
    omega

theorem mem_value_cols_of_mem {df : Table} {c : Column}
    (hc : c ∈ classifiedTable df) (hnum : is_numeric_dtype c = true) :
    c.name ∈ value_cols df := by
  unfold value_cols
  rw [List.mem_map]
  exact ⟨c, List.mem_filter.mpr ⟨hc, hnum⟩, rfl⟩

end ExcelToGraph

namespace ExcelToGraph

/-! ### Concrete example workbooks -/

/-- The standard palette (`Blau/Grau`). -/
def exPal : List String := ["#002060", "#0050b3", "#7f7f7f"]

/-- Sheet with a text category, a numeric series and its `_SD` sibling. -/
def exDf1 : Table :=
  [⟨"Region", [Cell.text "North", Cell.text "South"]⟩,
   ⟨"Revenue", [Cell.num 100, Cell.num 80]⟩,
   ⟨"Revenue_SD", [Cell.num 5, Cell.num 3]⟩]

def exWb1 : List (String × Table) := [("Q1", exDf1)]

/-- The chart the renderer builds for the `Revenue` column of `exDf1`:
title `"Q1 – Revenue"`, categories `["North", "South"]`, values
`[100, 80]`, errors `[5, 3]`. -/
def exSpecRevenue : ChartSpec :=
  mkChartSpec "Q1" "Revenue" exPal ["North", "South"]
    [Cell.num 100, Cell.num 80] (some [Cell.num 5, Cell.num 3])

/-- The chart the renderer builds for the `Revenue_SD` column itself:
title `"Q1 – Revenue_SD"`, values `[5, 3]`, no error bars. -/
def exSpecRevenueSD : ChartSpec :=
  mkChartSpec "Q1" "Revenue_SD" exPal ["North", "South"]
    [Cell.num 5, Cell.num 3] none

/-- Rendering `exWb1` yields the `Revenue` chart and then a chart whose
series is the error column `Revenue_SD` itself. -/
theorem assemble_exWb1 : assemble exWb1 exPal
    = [PageSpec.chart exSpecRevenue, PageSpec.chart exSpecRevenueSD] := rfl

/-- Sheet whose second numeric column `B` has a text-valued `B_SD`
sibling, so building `B`'s chart raises after `A`'s page was saved. -/
def exDf2 : Table :=
  [⟨"Region", [Cell.text "a", Cell.text "b"]⟩,
   ⟨"A", [Cell.num 1, Cell.num 2]⟩,
   ⟨"B", [Cell.num 3, Cell.num 4]⟩,
   ⟨"B_SD", [Cell.text "x", Cell.text "y"]⟩]

def exWb2 : List (String × Table) := [("S", exDf2)]

/-- The chart built for column `A` of `exDf2`: title `"S – A"`, values
`[1, 2]`, no error bars. -/
def exSpecA : ChartSpec :=
  mkChartSpec "S" "A" exPal ["a", "b"] [Cell.num 1, Cell.num 2] none

def exColA : Column := ⟨"A", [Cell.num 1, Cell.num 2]⟩
def exColCat : Column := ⟨"Cat", [Cell.text "u", Cell.text "v"]⟩
def exColB : Column := ⟨"B", [Cell.num 3, Cell.num 4]⟩

/-- Numeric column, then a text column, then another numeric column. -/
def exDf3 : Table := [exColA, exColCat, exColB]

/-- All-numeric table without an `Index` column. -/
def exDf4 : Table := [⟨"A", [Cell.num 1, Cell.num 3]⟩, ⟨"B", [Cell.num 2, Cell.num 4]⟩]

/-- Table with both an `X_SD` and an `X_Error` sibling but no `X_Fehler`. -/
def exDf5 : Table :=
  [⟨"X", [Cell.num 1]⟩, ⟨"X_SD", [Cell.num 2]⟩, ⟨"X_Error", [Cell.num 3]⟩]

/-- All-numeric table that already contains an `Index` column. -/
def exDfIdx : Table := [⟨"Index", [Cell.num 7, Cell.num 9]⟩, ⟨"A", [Cell.num 1, Cell.num 2]⟩]

def exDfEmpty : Table := []

/-! ### C1 -/

/-- C1, counterexample: in the workbook `exWb1` the column `Revenue_SD`
is bound as the error column of `Revenue`, yet the document contains a
ChartSpec page whose series is `Revenue_SD` itself — the error column is
not excluded from the charted numeric series, contrary to the claim. -/
theorem C1_counterexample :
    findErrorColumn exDf1 "Revenue" = some "Revenue_SD"
    ∧ exSpecRevenueSD.title = "Q1 – Revenue_SD"
    ∧ PageSpec.chart exSpecRevenueSD ∈ assemble exWb1 exPal := by
  refine ⟨by decide, rfl, ?_⟩
  rw [assemble_exWb1]
  exact List.mem_cons_of_mem _ (List.mem_cons_self _ _)

/-- C1 (amended): for every numeric column `X` with an associated error
column `E`, `E` is bound as `X`'s error series but is NOT excluded from
the charted numeric columns: any numeric-dtype column named `E` still
appears in `value_cols`, so it is charted as its own series as well. -/
theorem C1_error_column_still_charted (df : Table) (x e : String) (c : Column)
    (hfind : findErrorColumn df x = some e)
    (hc : c ∈ df) (hname : c.name = e) (hnum : is_numeric_dtype c = true) :
    e ∈ value_cols df := by
  have hcand : e ∈ errorCandidates x := List.mem_of_find?_eq_some hfind
  have hne : e ≠ "Index" := errorCandidate_ne_Index hcand
  have hc2 : c ∈ classifiedTable df := by
    unfold classifiedTable
    split
    · exact hc
    · exact setColumn_mem_of_ne hc (by rw [hname]; exact hne)
  have := mem_value_cols_of_mem hc2 hnum
  rwa [hname] at this

/-- Witness for C1 (amended) on `exDf1`. -/
theorem C1_error_column_still_charted_witness :
    findErrorColumn exDf1 "Revenue" = some "Revenue_SD"
    ∧ (⟨"Revenue_SD", [Cell.num 5, Cell.num 3]⟩ : Column) ∈ exDf1
    ∧ is_numeric_dtype ⟨"Revenue_SD", [Cell.num 5, Cell.num 3]⟩ = true
    ∧ "Revenue_SD" ∈ value_cols exDf1 :=
  ⟨by decide, by decide, by decide,
   C1_error_column_still_charted exDf1 "Revenue" "Revenue_SD"
     ⟨"Revenue_SD", [Cell.num 5, Cell.num 3]⟩ (by decide) (by decide) rfl (by decide)⟩

/-! ### C2 -/

/-- C2, counterexample: in the workbook `exWb2` the sheet `S` fails
while building column `B` (its `B_SD` sibling holds text), yet the
sheet's output is NOT a single ErrorPlaceholder page: the chart for
column `A`, saved before the failure, remains in the document, followed
by the error page. -/
theorem C2_counterexample :
    assemble exWb2 exPal
      = [PageSpec.chart exSpecA,
         PageSpec.errorPlaceholder "S" "could not convert error values to float"]
    ∧ exSpecA.title = "S – A" :=
  ⟨rfl, rfl⟩

/-- C2 (amended): when a failure occurs while building the chart of some
column `c` of a sheet, the pages of the columns built before `c` are
kept in the document, followed by a single ErrorPlaceholder carrying the
sheet name and the failure message; only `c` and the columns after it
contribute nothing. -/
theorem C2_partial_pages_kept (name : String) (df : Table) (pal : List String)
    (pre : List String) (c : String) (rest : List String) (msg : String)
    (hcols : value_cols df = pre ++ c :: rest)
    (hpre : ∀ x ∈ pre,
      (chartFor (classifiedTable df) name pal (sheetCategories df) x).isOk = true)
    (hc : chartFor (classifiedTable df) name pal (sheetCategories df) c = .error msg)
    (hne : tableIsEmpty df = false) :
    sheetContribution pal (name, df)
      = ((pre.filterMap
            (fun x =>
              (chartFor (classifiedTable df) name pal (sheetCategories df) x).toOption)).map
          PageSpec.chart)
        ++ [PageSpec.errorPlaceholder name msg] := by
  have hr : render_sheet_to_pdf df name pal
      = (pre.filterMap
          (fun x =>
            (chartFor (classifiedTable df) name pal (sheetCategories df) x).toOption),
         some msg) := by
    unfold render_sheet_to_pdf
    rw [hcols]
    exact renderCols_prefix_error hpre hc
  unfold sheetContribution
  rw [if_neg (by simp [hne]), hr]

/-- Witness for C2 (amended) on `exDf2`. -/
theorem C2_partial_pages_kept_witness :
    value_cols exDf2 = ["A"] ++ "B" :: []
    ∧ (∀ x ∈ (["A"] : List String),
        (chartFor (classifiedTable exDf2) "S" exPal (sheetCategories exDf2) x).isOk = true)
    ∧ chartFor (classifiedTable exDf2) "S" exPal (sheetCategories exDf2) "B"
        = .error "could not convert error values to float"
    ∧ tableIsEmpty exDf2 = false
    ∧ sheetContribution exPal ("S", exDf2)
        = (((["A"] : List String).filterMap
              (fun x =>
                (chartFor (classifiedTable exDf2) "S" exPal (sheetCategories exDf2) x).toOption)).map
            PageSpec.chart)
          ++ [PageSpec.errorPlaceholder "S" "could not convert error values to float"] :=
  ⟨by decide, by decide, rfl, by decide,
   C2_partial_pages_kept "S" exDf2 exPal ["A"] "B" [] "could not convert error values to float"
     (by decide) (by decide) rfl (by decide)⟩

end ExcelToGraph

namespace ExcelToGraph

/-! ### C3 -/

/-- C3: the category column is the first column (in declared order)
whose dtype is not numeric; when every column is numeric, the synthetic
category is the stringified 0-based row positions, and the synthetic
column is not among the charted numeric columns. -/
theorem C3_category_selection (df : Table) (pre : List Column) (c : Column)
    (rest : List Column) (hrows : 0 < nRows df) :
    (df = pre ++ c :: rest → (∀ p ∈ pre, is_numeric_dtype p = true) →
        is_numeric_dtype c = false → find_category_column df = some c.name)
    ∧ ((∀ col ∈ df, is_numeric_dtype col = true) →
        sheetCategories df = (List.range (nRows df)).map toString
        ∧ "Index" ∉ value_cols df) := by
  constructor
  · rintro rfl hpre hc
    exact find_category_first rest hpre hc
  · intro hall
    exact ⟨sheetCategories_all_numeric hall, index_not_mem_value_cols hall hrows⟩

/-- Witness for C3: on `exDf3` the first non-numeric column `Cat` is
selected; on the all-numeric `exDf4` the synthetic category is
`["0", "1"]` and `Index` is not charted. -/
theorem C3_category_selection_witness :
    0 < nRows exDf3
    ∧ exDf3 = [exColA] ++ exColCat :: [exColB]
    ∧ (∀ p ∈ [exColA], is_numeric_dtype p = true)
    ∧ is_numeric_dtype exColCat = false
    ∧ find_category_column exDf3 = some exColCat.name
    ∧ 0 < nRows exDf4
    ∧ (∀ col ∈ exDf4, is_numeric_dtype col = true)
    ∧ sheetCategories exDf4 = (List.range (nRows exDf4)).map toString
    ∧ "Index" ∉ value_cols exDf4 :=
  ⟨by decide, rfl, by decide, by decide,
   (C3_category_selection exDf3 [exColA] exColCat [exColB] (by decide)).1 rfl
     (by decide) (by decide),
   by decide, by decide,
   ((C3_category_selection exDf4 [] exColA [] (by decide)).2 (by decide)).1,
   ((C3_category_selection exDf4 [] exColA [] (by decide)).2 (by decide)).2⟩

/-! ### C4 -/

/-- C4: the error-column probe for a numeric column `x` checks
`x_Fehler`, `x_SD`, `x_Error` in exactly that priority order and binds
the first name present; when none is present, `x` has no error column
and its chart carries no error bars. -/
theorem C4_error_probe_priority (df : Table) (x : String) :
    (hasColumn df (x ++ "_Fehler") = true →
        findErrorColumn df x = some (x ++ "_Fehler"))
    ∧ (hasColumn df (x ++ "_Fehler") = false → hasColumn df (x ++ "_SD") = true →
        findErrorColumn df x = some (x ++ "_SD"))
    ∧ (hasColumn df (x ++ "_Fehler") = false → hasColumn df (x ++ "_SD") = false →
        hasColumn df (x ++ "_Error") = true →
        findErrorColumn df x = some (x ++ "_Error"))
    ∧ (hasColumn df (x ++ "_Fehler") = false → hasColumn df (x ++ "_SD") = false →
        hasColumn df (x ++ "_Error") = false →
        findErrorColumn df x = none
        ∧ ∀ (l : String) (pal cats : List String) (spec : ChartSpec),
            chartFor df l pal cats x = .ok spec → spec.errors = none) := by
  refine ⟨?_, ?_, ?_, ?_⟩
  · intro h1
    unfold findErrorColumn errorCandidates
    rw [List.find?_cons_of_pos _ h1]
  · intro h1 h2
    unfold findErrorColumn errorCandidates
    rw [List.find?_cons_of_neg _ (by simp [h1]), List.find?_cons_of_pos _ h2]
  · intro h1 h2 h3
    unfold findErrorColumn errorCandidates
    rw [List.find?_cons_of_neg _ (by simp [h1]), List.find?_cons_of_neg _ (by simp [h2]),
        List.find?_cons_of_pos _ h3]
  · intro h1 h2 h3
    have hnone : findErrorColumn df x = none := by
      unfold findErrorColumn errorCandidates
      rw [List.find?_cons_of_neg _ (by simp [h1]), List.find?_cons_of_neg _ (by simp [h2]),
          List.find?_cons_of_neg _ (by simp [h3])]
      rfl
    refine ⟨hnone, ?_⟩
    intro l pal cats spec hok
    obtain ⟨ecOpt, rfl, -, hec, -⟩ := chartFor_ok_spec hok
    rw [hnone] at hec
    simp only [Option.map_none'] at hec
    rw [hec]
    rfl

/-- Witness for C4: on `exDf5` (which has `X_SD` and `X_Error` but no
`X_Fehler`) the probe binds `X_SD`; on `exDf4` no candidate exists for
`A`, so no error column is bound and the chart for `A` has no errors. -/
theorem C4_error_probe_priority_witness :
    hasColumn exDf5 ("X" ++ "_Fehler") = false
    ∧ hasColumn exDf5 ("X" ++ "_SD") = true
    ∧ findErrorColumn exDf5 "X" = some ("X" ++ "_SD")
    ∧ hasColumn exDf4 ("A" ++ "_Fehler") = false
    ∧ hasColumn exDf4 ("A" ++ "_SD") = false
    ∧ hasColumn exDf4 ("A" ++ "_Error") = false
    ∧ findErrorColumn exDf4 "A" = none
    ∧ chartFor exDf4 "S" exPal ["0", "1"] "A"
        = .ok (mkChartSpec "S" "A" exPal ["0", "1"] [Cell.num 1, Cell.num 3] none)
    ∧ (mkChartSpec "S" "A" exPal ["0", "1"] [Cell.num 1, Cell.num 3] none).errors = none :=
  ⟨by decide, by decide,
   (C4_error_probe_priority exDf5 "X").2.1 (by decide) (by decide),
   by decide, by decide, by decide,
   ((C4_error_probe_priority exDf4 "A").2.2.2 (by decide) (by decide) (by decide)).1,
   rfl,
   ((C4_error_probe_priority exDf4 "A").2.2.2 (by decide) (by decide) (by decide)).2
     "S" exPal ["0", "1"]
     (mkChartSpec "S" "A" exPal ["0", "1"] [Cell.num 1, Cell.num 3] none) rfl⟩

end ExcelToGraph

namespace ExcelToGraph

/-- A sheet with no failure contributes exactly its chart pages. -/
theorem sheetContribution_of_none {pal : List String} {name : String} {df : Table}
    (hne : tableIsEmpty df = false)
    (h : (render_sheet_to_pdf df name pal).2 = none) :
    sheetContribution pal (name, df)
      = ((render_sheet_to_pdf df name pal).1).map PageSpec.chart := by
  unfold sheetContribution
  rw [if_neg (by simp [hne])]
  rcases hr : render_sheet_to_pdf df name pal with ⟨ps, e⟩
  rw [hr] at h
  simp only at h
  subst h
  rfl

/-! ### C5 -/

/-- C5: the assembled document is exactly the concatenation, in sheet
input order, of each sheet's pages; an empty table contributes zero
pages and no error page; and on success a sheet's pages are the charts
of its numeric columns in declared column order. -/
theorem C5_page_order (wb : List (String × Table)) (pal : List String)
    (name : String) (df : Table) :
    assemble wb pal = (wb.map (sheetContribution pal)).flatten
    ∧ (tableIsEmpty df = true → sheetContribution pal (name, df) = [])
    ∧ ((render_sheet_to_pdf df name pal).2 = none → tableIsEmpty df = false →
        sheetContribution pal (name, df)
          = ((render_sheet_to_pdf df name pal).1).map PageSpec.chart
        ∧ ((render_sheet_to_pdf df name pal).1).map ChartSpec.title
          = (value_cols df).map (fun c => name ++ " – " ++ c)) := by
  refine ⟨assemble_eq_flatten wb pal, ?_, ?_⟩
  · intro h
    unfold sheetContribution
    rw [if_pos h]
  · intro hnone hne
    refine ⟨sheetContribution_of_none hne hnone, ?_⟩
    unfold render_sheet_to_pdf at hnone ⊢
    exact renderCols_fst_titles hnone

/-- Witness for C5 on the workbook `exWb1`, the empty table and the
successful sheet `exDf1`. -/
theorem C5_page_order_witness :
    assemble exWb1 exPal = (exWb1.map (sheetContribution exPal)).flatten
    ∧ tableIsEmpty exDfEmpty = true
    ∧ sheetContribution exPal ("E", exDfEmpty) = []
    ∧ (render_sheet_to_pdf exDf1 "Q1" exPal).2 = none
    ∧ tableIsEmpty exDf1 = false
    ∧ sheetContribution exPal ("Q1", exDf1)
        = ((render_sheet_to_pdf exDf1 "Q1" exPal).1).map PageSpec.chart
    ∧ ((render_sheet_to_pdf exDf1 "Q1" exPal).1).map ChartSpec.title
        = (value_cols exDf1).map (fun c => "Q1" ++ " – " ++ c) :=
  ⟨(C5_page_order exWb1 exPal "E" exDfEmpty).1, by decide,
   (C5_page_order exWb1 exPal "E" exDfEmpty).2.1 (by decide),
   by decide, by decide,
   ((C5_page_order exWb1 exPal "Q1" exDf1).2.2 (by decide) (by decide)).1,
   ((C5_page_order exWb1 exPal "Q1" exDf1).2.2 (by decide) (by decide)).2⟩

/-! ### C6 -/

/-- C6: for every ChartSpec page of the assembled document, the y-axis
lower bound is 0, and the upper bound is `1.2 · max(values)` when the
value list is non-empty and 1 when it is empty. -/
theorem C6_yaxis_range (wb : List (String × Table)) (pal : List String)
    (spec : ChartSpec) (h : PageSpec.chart spec ∈ assemble wb pal) :
    spec.yLo = 0
    ∧ (spec.values ≠ [] → spec.yHi = (listMax spec.values : ℚ) * (6 / 5))
    ∧ (spec.values = [] → spec.yHi = 1) := by
  obtain ⟨s, hs, hmem⟩ := mem_assemble_contribution h
  obtain ⟨col, hcol, hok⟩ := mem_renderCols_fst (chart_mem_contribution hmem)
  obtain ⟨ecOpt, rfl, -, -, -⟩ := chartFor_ok_spec hok
  refine ⟨rfl, ?_, ?_⟩
  · intro hv
    simp only [mkChartSpec] at hv ⊢
    rw [if_pos (List.length_pos.mpr hv)]
  · intro hv
    simp only [mkChartSpec] at hv ⊢
    rw [hv]
    simp

/-- Witness for C6 on the `Revenue` chart of `exWb1` (non-empty values,
so the upper bound is `1.2 · max [100, 80]`). -/
theorem C6_yaxis_range_witness :
    PageSpec.chart exSpecRevenue ∈ assemble exWb1 exPal
    ∧ exSpecRevenue.values ≠ []
    ∧ exSpecRevenue.yLo = 0
    ∧ exSpecRevenue.yHi = (listMax exSpecRevenue.values : ℚ) * (6 / 5) :=
  have hmem : PageSpec.chart exSpecRevenue ∈ assemble exWb1 exPal := by
    rw [assemble_exWb1]; exact List.mem_cons_self _ _
  ⟨hmem, by decide,
   (C6_yaxis_range exWb1 exPal exSpecRevenue hmem).1,
   (C6_yaxis_range exWb1 exPal exSpecRevenue hmem).2.1 (by decide)⟩

/-! ### C7 -/

/-- C7: for every ChartSpec page and every category index `i` below the
category count, the bar color at `i` is `palette[i % palette.length]` —
the palette cycles over category indices within one chart. -/
theorem C7_palette_cycling (wb : List (String × Table)) (pal : List String)
    (spec : ChartSpec) (i : Nat) (h : PageSpec.chart spec ∈ assemble wb pal)
    (hp : 0 < pal.length) (hi : i < spec.categories.length) :
    spec.colors[i]? = pal[i % pal.length]? := by
  obtain ⟨s, hs, hmem⟩ := mem_assemble_contribution h
  obtain ⟨col, hcol, hok⟩ := mem_renderCols_fst (chart_mem_contribution hmem)
  obtain ⟨ecOpt, rfl, -, -, -⟩ := chartFor_ok_spec hok
  simp only [mkChartSpec] at hi ⊢
  unfold cycleColors
  rw [List.getElem?_map, List.getElem?_range hi]
  have hlt : i % pal.length < pal.length := Nat.mod_lt _ hp
  rw [List.getElem?_eq_getElem hlt]
  simp only [Option.map_some']
  rw [List.getD_eq_getElem pal "" hlt]

/-- Witness for C7 at category index 1 of the `Revenue` chart. -/
theorem C7_palette_cycling_witness :
    PageSpec.chart exSpecRevenue ∈ assemble exWb1 exPal
    ∧ 0 < exPal.length
    ∧ 1 < exSpecRevenue.categories.length
    ∧ exSpecRevenue.colors[1]? = exPal[1 % exPal.length]? :=
  have hmem : PageSpec.chart exSpecRevenue ∈ assemble exWb1 exPal := by
    rw [assemble_exWb1]; exact List.mem_cons_self _ _
  ⟨hmem, by decide, by decide,
   C7_palette_cycling exWb1 exPal exSpecRevenue 1 hmem (by decide) (by decide)⟩

/-! ### C8 -/

/-- C8: for every ChartSpec page, the category list and the value list
have the same length, and when an error list is present it also has
that length. -/
theorem C8_lengths_aligned (wb : List (String × Table)) (pal : List String)
    (spec : ChartSpec) (h : PageSpec.chart spec ∈ assemble wb pal) :
    spec.categories.length = spec.values.length
    ∧ ∀ es, spec.errors = some es → es.length = spec.values.length := by
  obtain ⟨s, hs, hmem⟩ := mem_assemble_contribution h
  obtain ⟨col, hcol, hok⟩ := mem_renderCols_fst (chart_mem_contribution hmem)
  obtain ⟨ecOpt, rfl, hlen, -, herr⟩ := chartFor_ok_spec hok
  constructor
  · simp only [mkChartSpec, List.length_map]
    exact hlen.symm
  · intro es hes
    simp only [mkChartSpec] at hes ⊢
    cases hec : ecOpt with
    | none => rw [hec] at hes; simp at hes
    | some es0 =>
      rw [hec] at hes
      simp only [Option.map_some', Option.some.injEq] at hes
      have hlen0 := herr es0 hec
      subst hes
      simp [List.length_map, hlen0]

/-- Witness for C8 on the `Revenue` chart (2 categories, 2 values,
2 error magnitudes). -/
theorem C8_lengths_aligned_witness :
    PageSpec.chart exSpecRevenue ∈ assemble exWb1 exPal
    ∧ exSpecRevenue.categories.length = exSpecRevenue.values.length
    ∧ exSpecRevenue.errors = some [5, 3]
    ∧ ([5, 3] : List Int).length = exSpecRevenue.values.length :=
  have hmem : PageSpec.chart exSpecRevenue ∈ assemble exWb1 exPal := by
    rw [assemble_exWb1]; exact List.mem_cons_self _ _
  ⟨hmem,
   (C8_lengths_aligned exWb1 exPal exSpecRevenue hmem).1,
   by decide,
   (C8_lengths_aligned exWb1 exPal exSpecRevenue hmem).2 [5, 3] (by decide)⟩

end ExcelToGraph

namespace ExcelToGraph

/-! ### C9 -/

/-- C9: sheet failures are isolated — the pages contributed by the
sheets before and after any sheet `s` do not depend on `s` at all: the
document around `s`'s contribution is exactly what the same workbook
without `s` produces. -/
theorem C9_failure_isolation (pre post : List (String × Table))
    (s : String × Table) (pal : List String) :
    assemble (pre ++ s :: post) pal
      = assemble pre pal ++ sheetContribution pal s ++ assemble post pal
    ∧ assemble (pre ++ post) pal = assemble pre pal ++ assemble post pal := by
  constructor
  · simp [assemble_eq_flatten, List.append_assoc]
  · simp [assemble_eq_flatten]

/-! ### C10 -/

/-- C10: on an all-numeric table that already contains a column named
`Index`, rendering overwrites that column in place with the synthetic
string category (the stringified row positions): `Index` becomes the
category column, the column names are unchanged, `Index` is not among
the charted numeric columns, and no chart page titled after `Index` is
produced. -/
theorem C10_index_overwritten (df : Table) (label : String) (pal : List String)
    (hall : ∀ col ∈ df, is_numeric_dtype col = true)
    (hidx : hasColumn df "Index" = true) (hrows : 0 < nRows df) :
    categoryColName df = "Index"
    ∧ (classifiedTable df).map Column.name = df.map Column.name
    ∧ sheetCategories df = (List.range (nRows df)).map toString
    ∧ "Index" ∉ value_cols df
    ∧ ∀ spec ∈ (render_sheet_to_pdf df label pal).1,
        spec.title ≠ label ++ " – " ++ "Index" := by
  refine ⟨?_, ?_, sheetCategories_all_numeric hall,
    index_not_mem_value_cols hall hrows, ?_⟩
  · unfold categoryColName
    rw [find_category_none hall]
    rfl
  · rw [classifiedTable_all_numeric hall]
    exact setColumn_names_of_has hidx
  · intro spec hspec heq
    obtain ⟨col, hcol, hok⟩ := mem_renderCols_fst hspec
    have ht := chartFor_ok_title hok
    have hteq : label ++ " – " ++ col = label ++ " – " ++ "Index" := by
      rw [← ht, heq]
    have hcol_eq : col = "Index" := string_append_left_cancel hteq
    rw [hcol_eq] at hcol
    exact index_not_mem_value_cols hall hrows hcol

/-- Witness for C10 on `exDfIdx` (all-numeric, with a numeric `Index`
column holding `[7, 9]`). -/
theorem C10_index_overwritten_witness :
    (∀ col ∈ exDfIdx, is_numeric_dtype col = true)
    ∧ hasColumn exDfIdx "Index" = true
    ∧ 0 < nRows exDfIdx
    ∧ categoryColName exDfIdx = "Index"
    ∧ (classifiedTable exDfIdx).map Column.name = exDfIdx.map Column.name
    ∧ sheetCategories exDfIdx = (List.range (nRows exDfIdx)).map toString
    ∧ "Index" ∉ value_cols exDfIdx
    ∧ ∀ spec ∈ (render_sheet_to_pdf exDfIdx "S" exPal).1,
        spec.title ≠ "S" ++ " – " ++ "Index" :=
  ⟨by decide, by decide, by decide,
   (C10_index_overwritten exDfIdx "S" exPal (by decide) (by decide) (by decide)).1,
   (C10_index_overwritten exDfIdx "S" exPal (by decide) (by decide) (by decide)).2.1,
   (C10_index_overwritten exDfIdx "S" exPal (by decide) (by decide) (by decide)).2.2.1,
   (C10_index_overwritten exDfIdx "S" exPal (by decide) (by decide) (by decide)).2.2.2.1,
   (C10_index_overwritten exDfIdx "S" exPal (by decide) (by decide) (by decide)).2.2.2.2⟩

end ExcelToGraph
